import Mathlib

/-
  Verification of the esp32-buzzer module (src/buzzer.c, src/include/buzzer/buzzer.h).

  Shallow embedding conventions:
  * `esp_err_t` is modelled as `Int`; `ESP_OK = 0`, `ESP_FAIL = -1`.  The external
    LEDC hardware calls (`ledc_timer_resume`, `ledc_timer_pause`, `ledc_set_freq`)
    return an arbitrary `esp_err_t` supplied by an environment: a `World` carries a
    list of pending hardware responses (`env`), consumed one per hardware call, with
    `ESP_OK` returned once the list is exhausted.  Every hardware interaction
    (including `vTaskDelay` sleeps) is recorded in a `trace`, so "issues no
    hardware call" is expressible as trace preservation.
  * C unsigned arithmetic is `Nat` with explicit `% 2^32` where a `uint32_t`
    multiplication could wrap.  The struct field `freq_hz` is declared `int32_t`
    in C but is only ever written from a `uint32_t` argument and read back as a
    `uint32_t` (`buzzer_get_freq`), a round trip that is the identity modulo 2^32;
    the model therefore carries the observable unsigned value as a `Nat`.
  * `buzzer_get_note_freq` returns a C `double`.  All values it produces are an
    integer of at most 13 bits divided by a power of two no larger than 2^8, all
    exactly representable in binary64, so the function is modelled exactly in `ℚ`.
  * The C null-handle checks (`if (!buzzer) return ESP_FAIL;`) have no counterpart:
    a Lean handle value always exists.  Claims quantify over valid handles.
  * `buzzer_init` ignores the results of its three hardware configuration calls and
    its struct-field initialisation does not depend on them, so it is modelled as
    the pure construction of the struct.
-/

namespace Buzzer

abbrev esp_err_t := Int

def ESP_OK : esp_err_t := 0

def ESP_FAIL : esp_err_t := -1

/-- The `_buzzer_note_t` enumeration from buzzer.h: twelve pitch classes followed
by the `BUZZER_NOTE_MAX` sentinel and the rest pseudo-note `BUZZER_NOTE_REST`. -/
inductive buzzer_note_t where
  | C | Cs | D | Ds | E | F | Fs | G | Gs | A | As | B
  | MAX
  | REST
  deriving DecidableEq, Repr

/-- Numeric value of each enumerator of `_buzzer_note_t` (C enums count from 0). -/
def noteIndex : buzzer_note_t → ℕ
  | .C => 0 | .Cs => 1 | .D => 2 | .Ds => 3 | .E => 4 | .F => 5
  | .Fs => 6 | .G => 7 | .Gs => 8 | .A => 9 | .As => 10 | .B => 11
  | .MAX => 12
  | .REST => 13

/-- The global array `note_base_freq[12]` of octave-8 base frequencies (buzzer.c). -/
def note_base_freq : List ℕ :=
  [4186, 4435, 4699, 4978, 5274, 5588, 5920, 6272, 6645, 7040, 7459, 7902]

/-- The `_buzzer_note_type_t` enumeration from buzzer.h: duration weights in
eighths of a beat. -/
inductive buzzer_note_type_t where
  | SEMIBREVE_DOTTED | SEMIBREVE | MINIM_DOTTED | MINIM
  | CROTCHET_DOTTED | CROTCHET | QUAVER_DOTTED | QUAVER
  | SEMIQUAVER_DOTTED | SEMIQUAVER
  deriving DecidableEq, Repr

/-- Numeric value of each `_buzzer_note_type_t` enumerator (buzzer.h). -/
def noteTypeWeight : buzzer_note_type_t → ℕ
  | .SEMIBREVE_DOTTED => 48
  | .SEMIBREVE => 32
  | .MINIM_DOTTED => 24
  | .MINIM => 16
  | .CROTCHET_DOTTED => 12
  | .CROTCHET => 8
  | .QUAVER_DOTTED => 6
  | .QUAVER => 4
  | .SEMIQUAVER_DOTTED => 3
  | .SEMIQUAVER => 2

def BUZZER_1_MIN_MS : ℕ := 60000

def BUZZER_BASE_PULSE_DIVISIONS : ℕ := 8

def BUZZER_INTIIAL_FREQ : ℕ := 440

/-- `buzzer_note_type_to_ms` (buzzer.c): `uint32_t` arithmetic; the product is the
only step that could wrap a `uint32_t`, hence the explicit `% 2^32`.  The `bpm = 0`
case is a C division by zero (undefined); claims only constrain `bpm > 0`. -/
def buzzer_note_type_to_ms (type : buzzer_note_type_t) (bpm : ℕ) : ℕ :=
  let ms_per_beat := BUZZER_1_MIN_MS / bpm
  ms_per_beat * noteTypeWeight type % 2 ^ 32 / BUZZER_BASE_PULSE_DIVISIONS

/-- `buzzer_get_note_freq` (buzzer.c): clamp the octave to 8, compute the divider
`1u << (8u - octave)`, return 0 for `REST`/`MAX`, otherwise the table entry divided
by the divider.  The C `double` arithmetic is exact here (integer of ≤ 13 bits
divided by a power of two), so the result is modelled in `ℚ`. -/
def buzzer_get_note_freq (note : buzzer_note_t) (octave : ℕ) : ℚ :=
  let oc := min octave 8
  let divider : ℚ := ((2 ^ (8 - oc) : ℕ) : ℚ)
  if note = .REST ∨ note = .MAX then 0
  else ((note_base_freq.getD (noteIndex note) 0 : ℕ) : ℚ) / divider

/-- The reference note-frequency definition, written from the specification text:
Rest and the out-of-range sentinel map to 0; otherwise
`base_table[note] / 2^(8 - clamped_octave)` with the octave clamped to at most 8,
where `base_table` is the spec's 12-entry octave-8 table. -/
def base_table : buzzer_note_t → ℕ
  | .C => 4186 | .Cs => 4435 | .D => 4699 | .Ds => 4978 | .E => 5274 | .F => 5588
  | .Fs => 5920 | .G => 6272 | .Gs => 6645 | .A => 7040 | .As => 7459 | .B => 7902
  | .MAX => 0
  | .REST => 0

/-- Spec-side frequency function (from the claim's words, for comparison with
`buzzer_get_note_freq`). -/
def noteFreqSpec (note : buzzer_note_t) (octave : ℕ) : ℚ :=
  if note = .REST ∨ note = .MAX then 0
  else (base_table note : ℚ) / 2 ^ (8 - min octave 8)

/-- The `struct _buzzer_t` from buzzer.c.  `freq_hz` carries the observable
unsigned 32-bit value (see the header comment on the `int32_t` round trip). -/
structure buzzer_t where
  channel : ℕ
  timer : ℕ
  playing : Bool
  freq_hz : ℕ
  deriving DecidableEq, Repr

/-- One interaction with the external collaborators: an LEDC hardware call or a
`vTaskDelay` sleep. -/
inductive HwCall where
  | timerResume (timer : ℕ)
  | timerPause (timer : ℕ)
  | setFreq (timer : ℕ) (freq_hz : ℕ)
  | sleep (time_ms : ℕ)
  deriving DecidableEq, Repr

/-- A buzzer handle together with its hardware environment: `env` is the list of
pending `esp_err_t` responses of the LEDC calls (head = next response, `ESP_OK`
once exhausted) and `trace` records every external interaction in order. -/
structure World where
  buzzer : buzzer_t
  env : List esp_err_t
  trace : List HwCall
  deriving DecidableEq, Repr

/-- Perform one LEDC hardware call: record it in the trace and consume the next
environment response. -/
def hwCall (c : HwCall) (w : World) : esp_err_t × World :=
  (w.env.headD ESP_OK, { w with env := w.env.tail, trace := w.trace ++ [c] })

/-- `vTaskDelay(pdMS_TO_TICKS(time_ms))`: recorded in the trace, no response. -/
def sleepW (time_ms : ℕ) (w : World) : World :=
  { w with trace := w.trace ++ [.sleep time_ms] }

/-- `buzzer_init` (buzzer.c): the struct is initialised with `playing = false` and
`freq_hz = BUZZER_INTIIAL_FREQ`; the three hardware configuration calls have their
results ignored and do not influence the struct. -/
def buzzer_init (channel timer : ℕ) : buzzer_t :=
  { channel := channel, timer := timer, playing := false,
    freq_hz := BUZZER_INTIIAL_FREQ }

/-- `buzzer_play` (buzzer.c): no-op success when already playing, else resume the
timer; only a response equal to `ESP_FAIL` is propagated, any other response leads
to `playing := true` and `ESP_OK`. -/
def buzzer_play (w : World) : esp_err_t × World :=
  if w.buzzer.playing = true then (ESP_OK, w)
  else
    let r := hwCall (.timerResume w.buzzer.timer) w
    if r.1 = ESP_FAIL then r
    else (ESP_OK, { r.2 with buzzer := { r.2.buzzer with playing := true } })

/-- `buzzer_is_playing` (buzzer.c). -/
def buzzer_is_playing (w : World) : Bool :=
  w.buzzer.playing

/-- `buzzer_pause` (buzzer.c): no-op success when already paused, else pause the
timer; only a response equal to `ESP_FAIL` is propagated. -/
def buzzer_pause (w : World) : esp_err_t × World :=
  if w.buzzer.playing = false then (ESP_OK, w)
  else
    let r := hwCall (.timerPause w.buzzer.timer) w
    if r.1 = ESP_FAIL then r
    else (ESP_OK, { r.2 with buzzer := { r.2.buzzer with playing := false } })

/-- `buzzer_play_ms` (buzzer.c): play, propagate `ESP_FAIL`, sleep, pause. -/
def buzzer_play_ms (time_ms : ℕ) (w : World) : esp_err_t × World :=
  let r := buzzer_play w
  if r.1 = ESP_FAIL then r
  else buzzer_pause (sleepW time_ms r.2)

/-- `buzzer_rest_ms` (buzzer.c): remember whether the buzzer was playing, pause
(propagating `ESP_FAIL`), sleep, and resume only if it was playing before. -/
def buzzer_rest_ms (time_ms : ℕ) (w : World) : esp_err_t × World :=
  let was_playing := w.buzzer.playing
  let r := buzzer_pause w
  if r.1 = ESP_FAIL then r
  else
    let w2 := sleepW time_ms r.2
    if was_playing = true then buzzer_play w2
    else (ESP_OK, w2)

/-- `buzzer_set_freq` (buzzer.c): reject `freq_hz = 0`, otherwise always issue
`ledc_set_freq` (the equal-frequency short-circuit is commented out in the
source); only an `ESP_FAIL` response is propagated, otherwise the struct field is
updated. -/
def buzzer_set_freq (freq_hz : ℕ) (w : World) : esp_err_t × World :=
  if freq_hz = 0 then (ESP_FAIL, w)
  else
    let r := hwCall (.setFreq w.buzzer.timer freq_hz) w
    if r.1 = ESP_FAIL then r
    else (ESP_OK, { r.2 with buzzer := { r.2.buzzer with freq_hz := freq_hz } })

/-- `buzzer_get_freq` (buzzer.c). -/
def buzzer_get_freq (w : World) : ℕ :=
  w.buzzer.freq_hz

/-- The implicit C conversion of the `double` returned by `buzzer_get_note_freq`
to the `uint32_t` parameter of `buzzer_set_freq`: truncation toward zero (the
values involved are non-negative and far below 2^32). -/
def ratToUint32 (q : ℚ) : ℕ :=
  q.floor.toNat % 2 ^ 32

/-- `buzzer_set_note` (buzzer.c): delegate to `buzzer_set_freq` at the note's
frequency. -/
def buzzer_set_note (note : buzzer_note_t) (octave : ℕ) (w : World) :
    esp_err_t × World :=
  buzzer_set_freq (ratToUint32 (buzzer_get_note_freq note octave)) w

/-- The `_buzzer_melody_note_t` struct from buzzer.h. -/
structure buzzer_musical_note_t where
  note : buzzer_note_t
  octave : ℕ
  type : buzzer_note_type_t
  deriving DecidableEq, Repr

/-- `buzzer_play_note` (buzzer.c): reject `bpm = 0`; for a rest, rest for the
note-type duration; otherwise set the note (propagating `ESP_FAIL`) and play for
the note-type duration. -/
def buzzer_play_note (note : buzzer_musical_note_t) (bpm : ℕ) (w : World) :
    esp_err_t × World :=
  if bpm = 0 then (ESP_FAIL, w)
  else if note.note = .REST then
    buzzer_rest_ms (buzzer_note_type_to_ms note.type bpm) w
  else
    let s := buzzer_set_note note.note note.octave w
    if s.1 = ESP_FAIL then s
    else buzzer_play_ms (buzzer_note_type_to_ms note.type bpm) s.2

/-- `buzzer_play_note_ms` (buzzer.c): set the note (propagating `ESP_FAIL`), then
play for the given time. -/
def buzzer_play_note_ms (note : buzzer_note_t) (octave : ℕ) (time_ms : ℕ)
    (w : World) : esp_err_t × World :=
  let s := buzzer_set_note note octave w
  if s.1 = ESP_FAIL then s
  else buzzer_play_ms time_ms s.2

/-- The `for` loop of `buzzer_play_melody` (buzzer.c): play each note in order,
returning the first `ESP_FAIL` immediately. -/
def buzzer_play_melody_loop (notes : List buzzer_musical_note_t) (bpm : ℕ)
    (w : World) : esp_err_t × World :=
  match notes with
  | [] => (ESP_OK, w)
  | note :: rest =>
    let r := buzzer_play_note note bpm w
    if r.1 = ESP_FAIL then r
    else buzzer_play_melody_loop rest bpm r.2

/-- `buzzer_play_melody` (buzzer.c): reject `bpm = 0` (and a melody is a list, so
the null-melody check has no counterpart), then run the loop. -/
def buzzer_play_melody (melody : List buzzer_musical_note_t) (bpm : ℕ)
    (w : World) : esp_err_t × World :=
  if bpm = 0 then (ESP_FAIL, w)
  else buzzer_play_melody_loop melody bpm w

/-- The hard-coded 25-note test melody of `buzzer_play_test` (buzzer.c). -/
def testMelody : List buzzer_musical_note_t :=
  [⟨.C, 4, .QUAVER_DOTTED⟩, ⟨.C, 4, .SEMIQUAVER⟩, ⟨.D, 4, .CROTCHET⟩,
   ⟨.C, 4, .CROTCHET⟩, ⟨.F, 4, .CROTCHET⟩, ⟨.E, 4, .MINIM⟩,
   ⟨.C, 4, .QUAVER_DOTTED⟩, ⟨.C, 4, .SEMIQUAVER⟩, ⟨.D, 4, .CROTCHET⟩,
   ⟨.C, 4, .CROTCHET⟩, ⟨.G, 4, .CROTCHET⟩, ⟨.F, 4, .MINIM⟩,
   ⟨.C, 4, .QUAVER_DOTTED⟩, ⟨.C, 4, .SEMIQUAVER⟩, ⟨.C, 5, .CROTCHET⟩,
   ⟨.A, 4, .CROTCHET⟩, ⟨.F, 4, .CROTCHET⟩, ⟨.E, 4, .CROTCHET⟩,
   ⟨.D, 4, .CROTCHET⟩, ⟨.As, 4, .QUAVER_DOTTED⟩, ⟨.As, 4, .SEMIQUAVER⟩,
   ⟨.A, 4, .CROTCHET⟩, ⟨.F, 4, .CROTCHET⟩, ⟨.G, 4, .CROTCHET⟩,
   ⟨.F, 4, .MINIM⟩]

/-- `buzzer_play_test` (buzzer.c): reject `bpm = 0`, then play the test melody. -/
def buzzer_play_test (bpm : ℕ) (w : World) : esp_err_t × World :=
  if bpm = 0 then (ESP_FAIL, w)
  else buzzer_play_melody testMelody bpm w

/-- A concrete middle-C crotchet, used to exercise the melody fail-fast path. -/
def c9note : buzzer_musical_note_t :=
  ⟨.C, 4, .CROTCHET⟩

/-- The two melody notes before the failing one. -/
def c9pre : List buzzer_musical_note_t :=
  [c9note, c9note]

/-- The two melody notes after the failing one (never reached). -/
def c9post : List buzzer_musical_note_t :=
  [c9note, c9note]

/-- Initial world for the fail-fast scenario: the hardware answers `ESP_OK` for
the six calls of the first two notes (set-frequency, resume, pause each) and
`ESP_FAIL` for the seventh call, the third note's set-frequency. -/
def c9w0 : World :=
  { buzzer := { channel := 0, timer := 0, playing := false, freq_hz := 440 },
    env := [0, 0, 0, 0, 0, 0, -1], trace := [] }

/-- The world reached after the first two notes of the fail-fast scenario. -/
def c9w2 : World :=
  { buzzer := { channel := 0, timer := 0, playing := false, freq_hz := 261 },
    env := [-1],
    trace := [.setFreq 0 261, .timerResume 0, .sleep 1000, .timerPause 0,
              .setFreq 0 261, .timerResume 0, .sleep 1000, .timerPause 0] }

/-! ### Helper lemmas -/

theorem rat_floor_eq_int_floor (q : ℚ) : q.floor = ⌊q⌋ :=
  rfl

theorem int_natCast_div_eq (a b : ℕ) : (a : ℤ) / (b : ℤ) = ((a / b : ℕ) : ℤ) :=
  rfl

/-- The note-frequency computation followed by the C `double → uint32_t`
truncation is ordinary natural-number division of the table entry by the
octave divider. -/
theorem set_note_freq_as_nat (note : buzzer_note_t) (octave : ℕ) :
    ratToUint32 (buzzer_get_note_freq note octave)
      = note_base_freq.getD (noteIndex note) 0 / 2 ^ (8 - min octave 8) := by
  have hb : note_base_freq.getD (noteIndex note) 0 ≤ 7902 := by
    cases note <;> decide
  by_cases h : note = .REST ∨ note = .MAX
  · have h0 : buzzer_get_note_freq note octave = 0 := by
      simp [buzzer_get_note_freq, h]
    have h1 : note_base_freq.getD (noteIndex note) 0 = 0 := by
      rcases h with h | h <;> subst h <;> decide
    rw [h0, h1, Nat.zero_div]
    simp [ratToUint32, rat_floor_eq_int_floor]
  · have h0 : buzzer_get_note_freq note octave
        = ((note_base_freq.getD (noteIndex note) 0 : ℕ) : ℚ)
            / ((2 ^ (8 - min octave 8) : ℕ) : ℚ) := by
      simp [buzzer_get_note_freq, h]
    have hlt : note_base_freq.getD (noteIndex note) 0 / 2 ^ (8 - min octave 8)
        < 2 ^ 32 :=
      lt_of_le_of_lt (le_trans (Nat.div_le_self _ _) hb) (by norm_num)
    rw [h0, ratToUint32, rat_floor_eq_int_floor,
      Rat.floor_natCast_div_natCast, int_natCast_div_eq, Int.toNat_natCast,
      Nat.mod_eq_of_lt hlt]

/-- `buzzer_set_note` in terms of natural-number division only. -/
theorem buzzer_set_note_as_nat (note : buzzer_note_t) (octave : ℕ) (w : World) :
    buzzer_set_note note octave w
      = buzzer_set_freq
          (note_base_freq.getD (noteIndex note) 0 / 2 ^ (8 - min octave 8)) w := by
  rw [buzzer_set_note, set_note_freq_as_nat]

/-! ### Claims -/

/-- C1: for every note and octave, `buzzer_get_note_freq` equals the reference
definition: `Rest` and the out-of-range sentinel `MAX` map to 0; otherwise, with
the octave clamped to at most 8, the result is
`base_table[note] / 2^(8 - clamped_octave)` where `base_table` is the 12-entry
octave-8 table (C=4186 ... B=7902). -/
theorem C1_note_frequency (note : buzzer_note_t) (octave : ℕ) :
    buzzer_get_note_freq note octave = noteFreqSpec note octave := by
  cases note <;>
    simp [buzzer_get_note_freq, noteFreqSpec, note_base_freq, noteIndex,
      base_table, Nat.cast_pow, Nat.cast_ofNat]

/-- C2: for every note-type weight and every `bpm > 0`,
`buzzer_note_type_to_ms type bpm` equals `((60000 / bpm) * weight) / 8` with
truncating division; in particular crotchet at 60 bpm is 1000 ms, minim at
60 bpm is 2000 ms and quaver at 120 bpm is 250 ms. -/
theorem C2_note_type_duration :
    (∀ type bpm, 0 < bpm →
        buzzer_note_type_to_ms type bpm
          = 60000 / bpm * noteTypeWeight type / 8) ∧
    buzzer_note_type_to_ms .CROTCHET 60 = 1000 ∧
    buzzer_note_type_to_ms .MINIM 60 = 2000 ∧
    buzzer_note_type_to_ms .QUAVER 120 = 250 := by
  refine ⟨fun type bpm _ => ?_, by decide, by decide, by decide⟩
  have h1 : 60000 / bpm ≤ 60000 := Nat.div_le_self _ _
  have h2 : noteTypeWeight type ≤ 48 := by cases type <;> simp [noteTypeWeight]
  have h3 : 60000 / bpm * noteTypeWeight type < 2 ^ 32 :=
    lt_of_le_of_lt (Nat.mul_le_mul h1 h2) (by norm_num)
  simp only [buzzer_note_type_to_ms, BUZZER_1_MIN_MS, BUZZER_BASE_PULSE_DIVISIONS]
  generalize hx : 60000 / bpm * noteTypeWeight type = x at h3 ⊢
  omega

/-- C2 witness: the general formula applied at the crotchet / 60 bpm input. -/
theorem C2_note_type_duration_witness :
    buzzer_note_type_to_ms .CROTCHET 60
      = 60000 / 60 * noteTypeWeight .CROTCHET / 8 :=
  C2_note_type_duration.1 .CROTCHET 60 (by decide)

/-- C6: `buzzer_set_freq` with frequency 0 fails and returns the world entirely
unchanged: same struct fields, same play/pause state, and no hardware call
(the trace and environment are untouched). -/
theorem C6_set_freq_zero_rejected (w : World) :
    buzzer_set_freq 0 w = (ESP_FAIL, w) := by
  simp [buzzer_set_freq]

/-- C10: `buzzer_set_note` with `Rest` computes frequency 0, which
`buzzer_set_freq` rejects, so the call fails and leaves the handle, the trace and
the environment entirely unchanged, for every octave. -/
theorem C10_set_note_rest_fails (w : World) (octave : ℕ) :
    buzzer_set_note .REST octave w = (ESP_FAIL, w) := by
  rw [buzzer_set_note_as_nat]
  simp [note_base_freq, noteIndex, buzzer_set_freq]

theorem esp_ok_ne_fail : ESP_OK ≠ ESP_FAIL := by
  decide

/-- C5: a second `buzzer_play` while already Playing is a success no-op: it
returns `ESP_OK` with the world — handle, environment and trace — unchanged, so
in particular no hardware resume call is issued; symmetrically, `buzzer_pause`
while already Paused returns `ESP_OK` with the world unchanged and issues no
hardware pause call. -/
theorem C5_play_pause_idempotent (w : World) :
    (w.buzzer.playing = true → buzzer_play w = (ESP_OK, w)) ∧
    (w.buzzer.playing = false → buzzer_pause w = (ESP_OK, w)) := by
  constructor
  · intro h
    simp [buzzer_play, h]
  · intro h
    simp [buzzer_pause, h]

/-- C5 witness: both no-op cases at concrete handles. -/
theorem C5_play_pause_idempotent_witness :
    buzzer_play
        { buzzer := { channel := 0, timer := 1, playing := true, freq_hz := 440 },
          env := [], trace := [] }
      = (ESP_OK,
         { buzzer := { channel := 0, timer := 1, playing := true, freq_hz := 440 },
           env := [], trace := [] }) ∧
    buzzer_pause
        { buzzer := { channel := 0, timer := 1, playing := false, freq_hz := 440 },
          env := [], trace := [] }
      = (ESP_OK,
         { buzzer := { channel := 0, timer := 1, playing := false, freq_hz := 440 },
           env := [], trace := [] }) :=
  ⟨(C5_play_pause_idempotent _).1 rfl, (C5_play_pause_idempotent _).2 rfl⟩

/-- C7: for every nonzero frequency, `buzzer_set_freq` always issues the hardware
frequency-reprogram call (the trace is extended by exactly that call, with no
equal-value short-circuit: the statement holds for every stored frequency,
including an equal one), and every handle field other than `freq_hz` — in
particular the play/pause state — is unchanged. -/
theorem C7_set_freq_frame (w : World) (freq_hz : ℕ) (h : freq_hz ≠ 0) :
    (buzzer_set_freq freq_hz w).2.trace
        = w.trace ++ [.setFreq w.buzzer.timer freq_hz] ∧
    (buzzer_set_freq freq_hz w).2.buzzer.playing = w.buzzer.playing ∧
    (buzzer_set_freq freq_hz w).2.buzzer.channel = w.buzzer.channel ∧
    (buzzer_set_freq freq_hz w).2.buzzer.timer = w.buzzer.timer := by
  by_cases hf : w.env.headD ESP_OK = ESP_FAIL <;> simp at hf <;>
    simp [buzzer_set_freq, h, hwCall, hf]

/-- C7 witness: reprogramming to 440 Hz on a handle already at 440 Hz still
issues the hardware call and keeps the Playing state. -/
theorem C7_set_freq_frame_witness :
    (buzzer_set_freq 440
        { buzzer := { channel := 2, timer := 3, playing := true, freq_hz := 440 },
          env := [], trace := [] }).2.trace = [.setFreq 3 440] ∧
    (buzzer_set_freq 440
        { buzzer := { channel := 2, timer := 3, playing := true, freq_hz := 440 },
          env := [], trace := [] }).2.buzzer.playing = true :=
  ⟨(C7_set_freq_frame _ 440 (by decide)).1, (C7_set_freq_frame _ 440 (by decide)).2.1⟩

/-- C4 counterexample: with the hardware resume call responding 258 (the nonzero
`esp_err_t` value `ESP_ERR_INVALID_ARG`, a failing return — success is `ESP_OK`
= 0), `buzzer_play` on a paused handle does not return the failure with the
state unchanged: the source only propagates the exact value `ESP_FAIL` (-1), so
it returns `ESP_OK` and transitions to Playing. -/
theorem C4_counterexample :
    (258 : Int) ≠ ESP_OK ∧
    ¬ ((buzzer_play
          { buzzer := { channel := 0, timer := 0, playing := false, freq_hz := 440 },
            env := [258], trace := [] }).1 ≠ ESP_OK ∧
       (buzzer_play
          { buzzer := { channel := 0, timer := 0, playing := false, freq_hz := 440 },
            env := [258], trace := [] }).2.buzzer
         = { channel := 0, timer := 0, playing := false, freq_hz := 440 }) ∧
    (buzzer_play
        { buzzer := { channel := 0, timer := 0, playing := false, freq_hz := 440 },
          env := [258], trace := [] }).1 = ESP_OK ∧
    (buzzer_play
        { buzzer := { channel := 0, timer := 0, playing := false, freq_hz := 440 },
          env := [258], trace := [] }).2.buzzer.playing = true := by
  decide

/-- C4 (amended): in the Paused state `buzzer_play` propagates a hardware
failure, leaving the handle unchanged, only when the resume call returns exactly
`ESP_FAIL` (-1); any other response — including other nonzero, failing error
codes — is treated as success: the handle transitions to Playing and `ESP_OK` is
returned.  Symmetrically for `buzzer_pause` in the Playing state. -/
theorem C4_amended_fail_propagation (w : World) :
    (w.buzzer.playing = false →
      (w.env.headD ESP_OK = ESP_FAIL →
        buzzer_play w
          = (ESP_FAIL,
             { w with env := w.env.tail,
                      trace := w.trace ++ [.timerResume w.buzzer.timer] })) ∧
      (w.env.headD ESP_OK ≠ ESP_FAIL →
        buzzer_play w
          = (ESP_OK,
             { w with buzzer := { w.buzzer with playing := true },
                      env := w.env.tail,
                      trace := w.trace ++ [.timerResume w.buzzer.timer] }))) ∧
    (w.buzzer.playing = true →
      (w.env.headD ESP_OK = ESP_FAIL →
        buzzer_pause w
          = (ESP_FAIL,
             { w with env := w.env.tail,
                      trace := w.trace ++ [.timerPause w.buzzer.timer] })) ∧
      (w.env.headD ESP_OK ≠ ESP_FAIL →
        buzzer_pause w
          = (ESP_OK,
             { w with buzzer := { w.buzzer with playing := false },
                      env := w.env.tail,
                      trace := w.trace ++ [.timerPause w.buzzer.timer] }))) := by
  refine ⟨fun hp => ⟨fun hf => ?_, fun hf => ?_⟩,
          fun hp => ⟨fun hf => ?_, fun hf => ?_⟩⟩ <;> simp at hf <;>
    simp [buzzer_play, buzzer_pause, hwCall, hp, hf]

/-- C4 witness: the amended claim at a paused handle whose resume call answers
`ESP_FAIL`: the failure is propagated and the handle is unchanged. -/
theorem C4_amended_fail_propagation_witness :
    buzzer_play
        { buzzer := { channel := 0, timer := 0, playing := false, freq_hz := 440 },
          env := [-1], trace := [] }
      = (ESP_FAIL,
         { buzzer := { channel := 0, timer := 0, playing := false, freq_hz := 440 },
           env := [], trace := [.timerResume 0] }) :=
  ((C4_amended_fail_propagation _).1 rfl).1 (by decide)

theorem sleepW_buzzer (t : ℕ) (w : World) : (sleepW t w).buzzer = w.buzzer :=
  rfl

theorem buzzer_play_keeps_freq (w : World) :
    (buzzer_play w).2.buzzer.freq_hz = w.buzzer.freq_hz := by
  by_cases hp : w.buzzer.playing = true
  · simp [buzzer_play, hp]
  · by_cases hf : w.env.headD ESP_OK = ESP_FAIL <;> simp at hf <;>
      simp [buzzer_play, hwCall, hp, hf]

theorem buzzer_pause_keeps_freq (w : World) :
    (buzzer_pause w).2.buzzer.freq_hz = w.buzzer.freq_hz := by
  by_cases hp : w.buzzer.playing = false
  · simp [buzzer_pause, hp]
  · by_cases hf : w.env.headD ESP_OK = ESP_FAIL <;> simp at hf <;>
      simp [buzzer_pause, hwCall, hp, hf]

theorem buzzer_play_ms_keeps_freq (t : ℕ) (w : World) :
    (buzzer_play_ms t w).2.buzzer.freq_hz = w.buzzer.freq_hz := by
  unfold buzzer_play_ms
  by_cases hf : (buzzer_play w).1 = ESP_FAIL
  · simp [hf, buzzer_play_keeps_freq]
  · simp only [hf, if_false]
    rw [buzzer_pause_keeps_freq, sleepW_buzzer, buzzer_play_keeps_freq]

theorem buzzer_rest_ms_keeps_freq (t : ℕ) (w : World) :
    (buzzer_rest_ms t w).2.buzzer.freq_hz = w.buzzer.freq_hz := by
  unfold buzzer_rest_ms
  by_cases hf : (buzzer_pause w).1 = ESP_FAIL
  · simp [hf, buzzer_pause_keeps_freq]
  · by_cases hp : w.buzzer.playing = true <;>
      simp [hf, hp, buzzer_play_keeps_freq, sleepW_buzzer,
        buzzer_pause_keeps_freq]

theorem buzzer_set_freq_keeps_pos (f : ℕ) (w : World)
    (h : 0 < w.buzzer.freq_hz) :
    0 < (buzzer_set_freq f w).2.buzzer.freq_hz := by
  by_cases h0 : f = 0
  · simp [buzzer_set_freq, h0, h]
  · by_cases hf : w.env.headD ESP_OK = ESP_FAIL <;> simp at hf <;>
      simp [buzzer_set_freq, h0, hwCall, hf, h, Nat.pos_of_ne_zero h0]

theorem buzzer_set_note_keeps_pos (note : buzzer_note_t) (octave : ℕ)
    (w : World) (h : 0 < w.buzzer.freq_hz) :
    0 < (buzzer_set_note note octave w).2.buzzer.freq_hz := by
  rw [buzzer_set_note]
  exact buzzer_set_freq_keeps_pos _ _ h

theorem buzzer_play_note_ms_keeps_pos (note : buzzer_note_t) (octave t : ℕ)
    (w : World) (h : 0 < w.buzzer.freq_hz) :
    0 < (buzzer_play_note_ms note octave t w).2.buzzer.freq_hz := by
  unfold buzzer_play_note_ms
  by_cases hs : (buzzer_set_note note octave w).1 = ESP_FAIL
  · simp only [hs, if_true]
    exact buzzer_set_note_keeps_pos _ _ _ h
  · simp only [hs, if_false]
    rw [buzzer_play_ms_keeps_freq]
    exact buzzer_set_note_keeps_pos _ _ _ h

theorem buzzer_play_note_keeps_pos (note : buzzer_musical_note_t) (bpm : ℕ)
    (w : World) (h : 0 < w.buzzer.freq_hz) :
    0 < (buzzer_play_note note bpm w).2.buzzer.freq_hz := by
  unfold buzzer_play_note
  by_cases hb : bpm = 0
  · simp [hb, h]
  · by_cases hr : note.note = .REST
    · simp only [hb, if_false, hr, if_true]
      rw [buzzer_rest_ms_keeps_freq]
      exact h
    · simp only [hb, if_false, hr]
      by_cases hs : (buzzer_set_note note.note note.octave w).1 = ESP_FAIL
      · simp only [hs, if_true]
        exact buzzer_set_note_keeps_pos _ _ _ h
      · simp only [hs, if_false]
        rw [buzzer_play_ms_keeps_freq]
        exact buzzer_set_note_keeps_pos _ _ _ h

theorem buzzer_play_melody_loop_keeps_pos (notes : List buzzer_musical_note_t)
    (bpm : ℕ) :
    ∀ w : World, 0 < w.buzzer.freq_hz →
      0 < (buzzer_play_melody_loop notes bpm w).2.buzzer.freq_hz := by
  induction notes with
  | nil =>
    intro w h
    simpa [buzzer_play_melody_loop] using h
  | cons n rest ih =>
    intro w h
    by_cases hf : (buzzer_play_note n bpm w).1 = ESP_FAIL
    · simp only [buzzer_play_melody_loop, hf, if_true]
      exact buzzer_play_note_keeps_pos _ _ _ h
    · simp only [buzzer_play_melody_loop, hf, if_false]
      exact ih _ (buzzer_play_note_keeps_pos _ _ _ h)

theorem buzzer_play_melody_keeps_pos (melody : List buzzer_musical_note_t)
    (bpm : ℕ) (w : World) (h : 0 < w.buzzer.freq_hz) :
    0 < (buzzer_play_melody melody bpm w).2.buzzer.freq_hz := by
  unfold buzzer_play_melody
  by_cases hb : bpm = 0
  · simp [hb, h]
  · simp only [hb, if_false]
    exact buzzer_play_melody_loop_keeps_pos _ _ _ h

/-- C3: `buzzer_init` stores frequency 440, and every operation preserves
positivity of the stored frequency: `buzzer_set_freq` rejects 0 before touching
anything, and every other operation either leaves the field unchanged or stores
a nonzero value through `buzzer_set_freq`. -/
theorem C3_freq_invariant :
    (∀ channel timer, (buzzer_init channel timer).freq_hz = 440) ∧
    (∀ w : World, 0 < w.buzzer.freq_hz →
        0 < (buzzer_play w).2.buzzer.freq_hz) ∧
    (∀ w : World, 0 < w.buzzer.freq_hz →
        0 < (buzzer_pause w).2.buzzer.freq_hz) ∧
    (∀ (w : World) (t : ℕ), 0 < w.buzzer.freq_hz →
        0 < (buzzer_play_ms t w).2.buzzer.freq_hz) ∧
    (∀ (w : World) (t : ℕ), 0 < w.buzzer.freq_hz →
        0 < (buzzer_rest_ms t w).2.buzzer.freq_hz) ∧
    (∀ (w : World) (f : ℕ), 0 < w.buzzer.freq_hz →
        0 < (buzzer_set_freq f w).2.buzzer.freq_hz) ∧
    (∀ (w : World) (note : buzzer_note_t) (octave : ℕ), 0 < w.buzzer.freq_hz →
        0 < (buzzer_set_note note octave w).2.buzzer.freq_hz) ∧
    (∀ (w : World) (note : buzzer_note_t) (octave t : ℕ),
        0 < w.buzzer.freq_hz →
        0 < (buzzer_play_note_ms note octave t w).2.buzzer.freq_hz) ∧
    (∀ (w : World) (note : buzzer_musical_note_t) (bpm : ℕ),
        0 < w.buzzer.freq_hz →
        0 < (buzzer_play_note note bpm w).2.buzzer.freq_hz) ∧
    (∀ (w : World) (melody : List buzzer_musical_note_t) (bpm : ℕ),
        0 < w.buzzer.freq_hz →
        0 < (buzzer_play_melody melody bpm w).2.buzzer.freq_hz) ∧
    (∀ (w : World) (bpm : ℕ), 0 < w.buzzer.freq_hz →
        0 < (buzzer_play_test bpm w).2.buzzer.freq_hz) := by
  refine ⟨fun _ _ => rfl,
    fun w h => ?_, fun w h => ?_, fun w t h => ?_, fun w t h => ?_,
    fun w f h => buzzer_set_freq_keeps_pos f w h,
    fun w note octave h => buzzer_set_note_keeps_pos note octave w h,
    fun w note octave t h => buzzer_play_note_ms_keeps_pos note octave t w h,
    fun w note bpm h => buzzer_play_note_keeps_pos note bpm w h,
    fun w melody bpm h => buzzer_play_melody_keeps_pos melody bpm w h,
    fun w bpm h => ?_⟩
  · rw [buzzer_play_keeps_freq]
    exact h
  · rw [buzzer_pause_keeps_freq]
    exact h
  · rw [buzzer_play_ms_keeps_freq]
    exact h
  · rw [buzzer_rest_ms_keeps_freq]
    exact h
  · unfold buzzer_play_test
    by_cases hb : bpm = 0
    · simp [hb, h]
    · simp only [hb, if_false]
      exact buzzer_play_melody_keeps_pos _ _ _ h

/-- C3 witness: the init value and one preservation clause at a concrete
handle. -/
theorem C3_freq_invariant_witness :
    (buzzer_init 0 1).freq_hz = 440 ∧
    0 < (buzzer_play
          { buzzer := { channel := 0, timer := 1, playing := false, freq_hz := 440 },
            env := [0], trace := [] }).2.buzzer.freq_hz :=
  ⟨C3_freq_invariant.1 0 1, C3_freq_invariant.2.1 _ (by decide)⟩

/-- C8: `buzzer_rest_ms` remembers whether the handle was Playing, pauses,
sleeps and restores: if the handle was Paused, it returns success with the
handle unchanged and only a sleep recorded (no resume call); if it was Playing
and the pause fails, the failure is propagated immediately; if it was Playing
and the pause succeeds, the final result is that of calling `buzzer_play` after
the sleep.  The stored frequency is unchanged in every case. -/
theorem C8_rest_restores (w : World) (t : ℕ) :
    (w.buzzer.playing = false →
        buzzer_rest_ms t w = (ESP_OK, sleepW t w)) ∧
    (w.buzzer.playing = true → (buzzer_pause w).1 = ESP_FAIL →
        buzzer_rest_ms t w = buzzer_pause w) ∧
    (w.buzzer.playing = true → (buzzer_pause w).1 ≠ ESP_FAIL →
        buzzer_rest_ms t w = buzzer_play (sleepW t (buzzer_pause w).2)) ∧
    (buzzer_rest_ms t w).2.buzzer.freq_hz = w.buzzer.freq_hz := by
  refine ⟨fun hp => ?_, fun hp hf => ?_, fun hp hf => ?_,
    buzzer_rest_ms_keeps_freq t w⟩
  · have hpause : buzzer_pause w = (ESP_OK, w) := by
      simp [buzzer_pause, hp]
    simp [buzzer_rest_ms, hpause, hp, esp_ok_ne_fail]
  · simp [buzzer_rest_ms, hf, hp]
  · simp [buzzer_rest_ms, hf, hp]

/-- C8 witness: resting 100 ms on a paused handle returns success with the
handle unchanged and exactly one sleep — no resume — recorded. -/
theorem C8_rest_restores_witness :
    buzzer_rest_ms 100
        { buzzer := { channel := 0, timer := 1, playing := false, freq_hz := 440 },
          env := [], trace := [] }
      = (ESP_OK,
         { buzzer := { channel := 0, timer := 1, playing := false, freq_hz := 440 },
           env := [], trace := [.sleep 100] }) :=
  (C8_rest_restores _ 100).1 rfl

/-- C9: `buzzer_play_melody` rejects `bpm = 0` without playing anything (the
world is returned unchanged); with `bpm ≠ 0` the empty melody succeeds, each
non-failing note is played in sequence order (the remainder of the melody
continues from the note's resulting world), and the first note whose
`buzzer_play_note` returns `ESP_FAIL` makes the whole call return exactly that
note's result — independently of the notes after it, which are never played. -/
theorem C9_melody_fail_fast :
    (∀ (w : World) (melody : List buzzer_musical_note_t),
        buzzer_play_melody melody 0 w = (ESP_FAIL, w)) ∧
    (∀ bpm, bpm ≠ 0 → ∀ w : World,
        buzzer_play_melody [] bpm w = (ESP_OK, w)) ∧
    (∀ bpm, bpm ≠ 0 →
      ∀ (w : World) (note : buzzer_musical_note_t)
        (rest : List buzzer_musical_note_t),
        (buzzer_play_note note bpm w).1 ≠ ESP_FAIL →
        buzzer_play_melody (note :: rest) bpm w
          = buzzer_play_melody rest bpm (buzzer_play_note note bpm w).2) ∧
    (∀ bpm, bpm ≠ 0 →
      ∀ (pre : List buzzer_musical_note_t) (w w2 : World),
        buzzer_play_melody pre bpm w = (ESP_OK, w2) →
        ∀ (note : buzzer_musical_note_t) (post : List buzzer_musical_note_t),
          (buzzer_play_note note bpm w2).1 = ESP_FAIL →
          buzzer_play_melody (pre ++ note :: post) bpm w
            = buzzer_play_note note bpm w2) := by
  refine ⟨fun w melody => ?_, fun bpm hb w => ?_,
    fun bpm hb w note rest hnf => ?_, fun bpm hb pre => ?_⟩
  · simp [buzzer_play_melody]
  · simp [buzzer_play_melody, hb, buzzer_play_melody_loop]
  · simp [buzzer_play_melody, hb, buzzer_play_melody_loop, hnf]
  · induction pre with
    | nil =>
      intro w w2 hpre note post hfail
      have hw : w = w2 := by
        simpa [buzzer_play_melody, hb, buzzer_play_melody_loop, Prod.ext_iff]
          using hpre
      subst hw
      simp [buzzer_play_melody, hb, buzzer_play_melody_loop, hfail]
    | cons p ps ih =>
      intro w w2 hpre note post hfail
      by_cases hp : (buzzer_play_note p bpm w).1 = ESP_FAIL
      · exfalso
        have hres : buzzer_play_note p bpm w = (ESP_OK, w2) := by
          simpa [buzzer_play_melody, hb, buzzer_play_melody_loop, hp]
            using hpre
        rw [hres] at hp
        exact esp_ok_ne_fail hp
      · have hpre2 : buzzer_play_melody ps bpm (buzzer_play_note p bpm w).2
            = (ESP_OK, w2) := by
          simpa [buzzer_play_melody, hb, buzzer_play_melody_loop, hp]
            using hpre
        have hrec := ih (buzzer_play_note p bpm w).2 w2 hpre2 note post hfail
        simpa [buzzer_play_melody, hb, buzzer_play_melody_loop, hp]
          using hrec

/-- C9 witness: in the concrete five-note scenario whose hardware fails on the
third note's first call, the melody result is exactly the third note's failing
result; the fourth and fifth notes do not influence it. -/
theorem C9_melody_fail_fast_witness :
    buzzer_play_melody (c9pre ++ c9note :: c9post) 60 c9w0
      = buzzer_play_note c9note 60 c9w2 :=
  C9_melody_fail_fast.2.2.2 60 (by decide) c9pre c9w0 c9w2
    (by
      simp only [c9pre, c9note, c9w0, c9w2, buzzer_play_melody,
        buzzer_play_melody_loop, buzzer_play_note, buzzer_set_note_as_nat]
      decide)
    c9note c9post
    (by
      simp only [c9note, c9w2, buzzer_play_note, buzzer_set_note_as_nat]
      decide)

end Buzzer
